import Mathlib

/-!
Shallow embedding of `src/libostree/ostree-metalink.c` (metalink manifest
resolver).  The C file is a work-in-progress snapshot: several struct fields
used by the code (`verification_type`, `verification_value`, `file_name`,
`requested_file`) are not declared in `struct OstreeMetalinkRequest`, the
end-of-element handler `metalink_parser_end` has an empty body, and two
statements in `on_metalink_bytes_read` are syntactically truncated.  The
embedding below follows the code as written: the referenced-but-undeclared
fields are added to the record (their use sites fix their meaning), the end
handler is the identity, and the byte-read loop is modelled at the level of
markup events (the GMarkup scanner that segments bytes into events is an
external collaborator assumed correct).  Machine integers (`guint64`) are
modelled as `Nat` with the `strtoull` clamp made explicit where a numeric
value is produced.
-/

/-- States of `OstreeMetalinkState` (ostree-metalink.c lines 28-41), in
declaration order; `INITIAL` is the zero value produced by `g_new0`. -/
inductive MetalinkState where
  | INITIAL
  | METALINK
  | FILES
  | FILE
  | SIZE
  | VERIFICATION
  | HASH
  | RESOURCES
  | URL
  | PASSTHROUGH
  | ERROR
  deriving DecidableEq, Repr

/-- The GLib `GChecksumType` enum; `MD5` is the zero value, so a
`g_new0`-allocated request starts with `verification_type = MD5`. -/
inductive GChecksumType where
  | MD5
  | SHA1
  | SHA256
  | SHA512
  deriving DecidableEq, Repr

/-- Markup events delivered by the GMarkup scanner collaborator: element
start (name and attribute list), element end, and text content. -/
inductive XmlEvent where
  | start (name : String) (attrs : List (String × String))
  | endElem (name : String)
  | text (s : String)
  deriving DecidableEq, Repr

/-- Errors set through `GError` by the parser callbacks and by
`start_target_request_phase`; one constructor per `g_set_error` call site,
plus `collectAttr` for `g_markup_collect_attributes` failures and
`assertNotReached` for the `g_assert_not_reached` default branch of the
checksum-type switch in `metalink_parser_text`. -/
inductive MetalinkError where
  | noSizeOrZero
  | noKnownHash
  | collectAttr (element attr : String)
  | noFileElement
  | noOurFile
  | noDigest
  | invalidSha256
  | invalidSha512
  | noUrls
  | assertNotReached
  deriving DecidableEq, Repr

/-- The per-resolution parse state, `struct OstreeMetalinkRequest`
(ostree-metalink.c lines 54-72), with `requested_file` inlined from the
owning `OstreeMetalink` object and with the fields the code uses but the
struct omits (`verification_type`, `verification_value`, `file_name`)
declared here.  `urls` keeps the accepted URL texts in insertion order
(the C code stores parsed `SoupURI` values in a `GPtrArray`). -/
structure OstreeMetalinkRequest where
  requested_file : String
  passthrough_depth : Nat
  passthrough_previous : MetalinkState
  found_a_file_element : Bool
  found_our_file_element : Bool
  verification_known : Bool
  size : Nat
  verification_type : GChecksumType
  verification_sha256 : Option String
  verification_sha512 : Option String
  verification_value : Option String
  urls : List String
  state : MetalinkState
  file_name : Option String
  deriving DecidableEq, Repr

/-- Zero-initialized request as built by `_ostree_metalink_request_async`
(`g_new0` plus the `requested_file`/`urls` assignments): every numeric and
boolean field is 0/false, `state` is `INITIAL` (enum value 0) and
`verification_type` is `MD5` (enum value 0). -/
def initialRequest (requested : String) : OstreeMetalinkRequest :=
  { requested_file := requested
    passthrough_depth := 0
    passthrough_previous := .INITIAL
    found_a_file_element := false
    found_our_file_element := false
    verification_known := false
    size := 0
    verification_type := .MD5
    verification_sha256 := none
    verification_sha512 := none
    verification_value := none
    urls := []
    state := .INITIAL
    file_name := none }

/-- The `state_transition` helper (lines 74-80).  The C version asserts
`state != new_state`; every call site passes a state different from the
current one, so the assertion is modelled as a plain assignment. -/
def state_transition (self : OstreeMetalinkRequest) (new_state : MetalinkState) :
    OstreeMetalinkRequest :=
  { self with state := new_state }

/-- The `unknown_element` helper (lines 82-89): enter passthrough.  The C
version additionally asserts `passthrough_depth == 0`. -/
def unknown_element (self : OstreeMetalinkRequest) : OstreeMetalinkRequest :=
  state_transition self .PASSTHROUGH

/-- Model of `g_markup_collect_attributes` with a single
`G_MARKUP_COLLECT_STRING` specifier: succeeds exactly when the element
carries exactly the one required attribute, and fails (setting `GError`)
when the attribute is missing, duplicated, or an unexpected attribute is
present. -/
def g_markup_collect_one (element : String) (attrs : List (String × String))
    (key : String) : Except MetalinkError String :=
  match attrs with
  | [(k, v)] => if k = key then .ok v else .error (.collectAttr element key)
  | _ => .error (.collectAttr element key)

/-- Value of an initial run of ASCII decimal digits, most significant
first, on top of an accumulator. -/
def digitsVal (acc : Nat) : List Char → Nat
  | [] => acc
  | c :: cs => if c.isDigit then digitsVal (acc * 10 + (c.toNat - 48)) cs else acc

/-- Model of `g_ascii_strtoull (s, NULL, 10)` as used on `<size>` text:
skip leading ASCII whitespace, read the longest run of decimal digits, and
clamp to the `guint64` maximum (on overflow `strtoull` returns
`G_MAXUINT64`). -/
def g_ascii_strtoull (s : String) : Nat :=
  min (digitsVal 0 (s.data.dropWhile fun c => c = ' ' || c = '\t' || c = '\n' || c = '\r'))
    (2 ^ 64 - 1)

/-- The `metalink_parser_start` callback (lines 91-246), one case per
machine state, translated clause by clause.  The C `switch` has no case for
`OSTREE_METALINK_STATE_ERROR`, so that state ignores the event. -/
def metalink_parser_start (self : OstreeMetalinkRequest) (element_name : String)
    (attrs : List (String × String)) : Except MetalinkError OstreeMetalinkRequest :=
  match self.state with
  | .INITIAL =>
      if element_name = "metalink" then
        .ok (state_transition self .METALINK)
      else
        .ok (unknown_element self)
  | .METALINK =>
      if element_name = "files" then
        .ok (state_transition self .FILES)
      else
        .ok (unknown_element self)
  | .FILES =>
      if self.urls.length > 0 then
        .ok (state_transition self .PASSTHROUGH)
      else if element_name = "file" then
        match g_markup_collect_one "file" attrs "name" with
        | .error e => .error e
        | .ok fname =>
            let self := { self with file_name := none, found_a_file_element := true }
            if fname ≠ self.requested_file then
              .ok (state_transition self .PASSTHROUGH)
            else
              .ok (state_transition { self with found_our_file_element := true } .FILE)
      else
        .ok (unknown_element self)
  | .FILE =>
      if element_name = "size" then
        .ok (state_transition self .SIZE)
      else if element_name = "verification" then
        .ok (state_transition self .VERIFICATION)
      else if element_name = "resources" then
        .ok (state_transition self .RESOURCES)
      else
        .ok (unknown_element self)
  | .SIZE => .ok (unknown_element self)
  | .VERIFICATION =>
      if element_name = "hash" then
        let self := state_transition self .HASH
        match g_markup_collect_one "hash" attrs "name" with
        | .error e => .error e
        | .ok tyStr =>
            let self := { self with verification_known := true }
            if tyStr = "sha256" then
              .ok { self with verification_type := .SHA256 }
            else if tyStr = "sha512" then
              .ok { self with verification_type := .SHA512 }
            else
              .ok { self with verification_known := false }
      else
        .ok (unknown_element self)
  | .HASH => .ok (unknown_element self)
  | .RESOURCES =>
      if self.size = 0 then
        .error .noSizeOrZero
      else if self.verification_known = false then
        .error .noKnownHash
      else if element_name = "url" then
        match g_markup_collect_one "url" attrs "protocol" with
        | .error e => .error e
        | .ok protocol =>
            if ¬ (protocol = "http" ∨ protocol = "https") then
              .ok (state_transition self .PASSTHROUGH)
            else
              .ok (state_transition self .URL)
      else
        .ok (unknown_element self)
  | .URL => .ok (unknown_element self)
  | .PASSTHROUGH =>
      .ok { self with passthrough_depth := self.passthrough_depth + 1 }
  | .ERROR => .ok self

/-- The `metalink_parser_end` callback (lines 248-255): its body only reads
`user_data` into a local and performs no state change at all. -/
def metalink_parser_end (self : OstreeMetalinkRequest) (_element_name : String) :
    OstreeMetalinkRequest :=
  self

/-- The `metalink_parser_text` callback (lines 257-319).  `uriOk` models
the external `soup_uri_new` collaborator: in state `URL` the text is
appended to `urls` exactly when it parses as a URI. -/
def metalink_parser_text (uriOk : String → Bool) (self : OstreeMetalinkRequest)
    (text : String) : Except MetalinkError OstreeMetalinkRequest :=
  match self.state with
  | .SIZE => .ok { self with size := g_ascii_strtoull text }
  | .VERIFICATION =>
      if self.verification_known then
        match self.verification_type with
        | .SHA256 => .ok { self with verification_sha256 := some text }
        | .SHA512 => .ok { self with verification_sha512 := some text }
        | _ => .error .assertNotReached
      else
        .ok self
  | .HASH => .ok { self with verification_value := some text }
  | .URL =>
      if uriOk text then
        .ok { self with urls := self.urls ++ [text] }
      else
        .ok self
  | _ => .ok self

/-- Dispatch of one markup event to the three parser callbacks. -/
def processEvent (uriOk : String → Bool) (self : OstreeMetalinkRequest) :
    XmlEvent → Except MetalinkError OstreeMetalinkRequest
  | .start n a => metalink_parser_start self n a
  | .endElem n => .ok (metalink_parser_end self n)
  | .text t => metalink_parser_text uriOk self t

/-- Dispatch of a list of markup events in order, aborting at the first
error, as `g_markup_parse_context_parse` does for one chunk. -/
def processEvents (uriOk : String → Bool) (self : OstreeMetalinkRequest) :
    List XmlEvent → Except MetalinkError OstreeMetalinkRequest
  | [] => .ok self
  | e :: es =>
      match processEvent uriOk self e with
      | .error err => .error err
      | .ok s2 => processEvents uriOk s2 es

/-- The accept set literal `"01234567890abcdef"` from `valid_hex_checksum`
(line 361), character for character (the `0` appears twice in the source
literal; `strspn` treats the argument as a set). -/
def strspnAccept : List Char := "01234567890abcdef".data

/-- Model of C `strspn`: length of the longest initial run of characters
of `s` that lie in the accept set. -/
def strspn (s : List Char) (accept : List Char) : Nat :=
  match s with
  | [] => 0
  | c :: cs => if c ∈ accept then strspn cs accept + 1 else 0

/-- The `valid_hex_checksum` function (lines 358-364).  The C condition
`s[len] == '\0'` reads the character after the accepted run; on a
NUL-free character list (every C string) that character is the terminator
exactly when the run covers the whole string, so it is modelled here by
indexing with the NUL character as out-of-range default. -/
def valid_hex_checksum (s : String) (expected_len : Nat) : Bool :=
  let len := strspn s.data strspnAccept
  len = expected_len && s.data.getD len '\x00' = '\x00'

/-- The `start_target_request_phase` checks (lines 366-418): the
sequential `goto out` chain over the accumulated request state, in source
order.  The function returns only a `gboolean` (the target-selection part
of this phase is absent from the file), so success carries no payload. -/
def start_target_request_phase (self : OstreeMetalinkRequest) :
    Except MetalinkError Unit :=
  if self.found_a_file_element = false then
    .error .noFileElement
  else if self.found_our_file_element = false then
    .error .noOurFile
  else if self.verification_sha256 = none ∧ self.verification_sha512 = none then
    .error .noDigest
  else if (self.verification_sha256.any fun h => ! valid_hex_checksum h 64) then
    .error .invalidSha256
  else if (self.verification_sha512.any fun h => ! valid_hex_checksum h 128) then
    .error .invalidSha512
  else if self.urls.length = 0 then
    .error .noUrls
  else
    .ok ()

/-- The `on_metalink_bytes_read` read loop (lines 420-455) at the level of
markup events: the manifest stream is a list of chunks, each chunk already
segmented into events by the GMarkup collaborator.  A non-empty chunk is
parsed (a parse error completes the task with that error and stops
reading) and the next chunk is requested; the empty chunk — a read that
yields zero bytes — runs `start_target_request_phase` exactly once and
completes with its verdict, never reading further.  A stream that is
exhausted without a zero-byte read never completes (`none`). -/
def resolveStream (uriOk : String → Bool) (self : OstreeMetalinkRequest) :
    List (List XmlEvent) → Option (Except MetalinkError OstreeMetalinkRequest)
  | [] => none
  | chunk :: rest =>
      match chunk with
      | [] => some ((start_target_request_phase self).map fun _ => self)
      | _ :: _ =>
          match processEvents uriOk self chunk with
          | .error e => some (.error e)
          | .ok s2 => resolveStream uriOk s2 rest

/-- Whole-resolution pipeline: zero-initialized request fed with the
manifest chunk stream; on success the final request record carries the
resolved data (urls, size, digests). -/
def resolve (uriOk : String → Bool) (requested : String)
    (chunks : List (List XmlEvent)) : Option (Except MetalinkError OstreeMetalinkRequest) :=
  resolveStream uriOk (initialRequest requested) chunks

/-- True exactly when a resolution outcome is a completed success. -/
def isOkOutcome : Option (Except MetalinkError OstreeMetalinkRequest) → Bool
  | some (.ok _) => true
  | _ => false

/-- The `MetalinkSyncCallState` record of `_ostree_metalink_request_sync`
(lines 514-521), restricted to the two scalar fields the control flow
reads and writes. -/
structure MetalinkSyncCallState where
  running : Bool
  success : Bool
  deriving DecidableEq, Repr

/-- The `MetalinkSyncCallState state = { 0, };` initializer (line 545):
every field zero, so `running = false` and `success = false`. -/
def initSyncCallState : MetalinkSyncCallState :=
  { running := false, success := false }

/-- The `on_async_result` completion callback (lines 523-534): store the
asynchronous verdict into `success` and clear `running`. -/
def on_async_result (async_success : Bool) (_state : MetalinkSyncCallState) :
    MetalinkSyncCallState :=
  { running := false, success := async_success }

/-- The `while (state.running) g_main_context_iteration (...)` loop of
`_ostree_metalink_request_sync` (lines 549-550), with `fuel` bounding the
number of iterations and each iteration generously assumed to deliver the
pending completion callback.  Returns the final call state together with
the number of iterations actually executed. -/
def syncLoop (async_success : Bool) :
    Nat → MetalinkSyncCallState → MetalinkSyncCallState × Nat
  | 0, s => (s, 0)
  | fuel + 1, s =>
      if s.running then
        let r := syncLoop async_success fuel (on_async_result async_success s)
        (r.1, r.2 + 1)
      else
        (s, 0)

/-- The `_ostree_metalink_request_sync` body (lines 536-557): build the
zero-initialized call state, start the asynchronous request (whose eventual
verdict is `async_success`), run the iteration loop, and return
`state.success` together with the iteration count. -/
def ostree_metalink_request_sync (async_success : Bool) (fuel : Nat) : Bool × Nat :=
  let state := initSyncCallState
  let r := syncLoop async_success fuel state
  (r.1.success, r.2)

/-! ## Concrete inputs used by the claim theorems and witnesses -/

/-- A stand-in for the `soup_uri_new` collaborator that accepts every URI
text. -/
def anyUri : String → Bool := fun _ => true

/-- Event stream of a canonical well-formed metalink manifest for file
`example.img`: matching `file` entry, nonzero `size`, a `verification`
block with a valid 64-hex sha256 `hash`, and one http `url`. -/
def goodManifest : List XmlEvent :=
  [ .start "metalink" [], .start "files" [], .start "file" [("name", "example.img")],
    .start "size" [], .text "1000", .endElem "size",
    .start "verification" [], .start "hash" [("name", "sha256")],
    .text "aaaaaaaaaaaaaaaaaaaaaaaaaaaaaaaaaaaaaaaaaaaaaaaaaaaaaaaaaaaaaaaa",
    .endElem "hash", .endElem "verification",
    .start "resources" [], .start "url" [("protocol", "http")],
    .text "http://example.com/example.img", .endElem "url", .endElem "resources",
    .endElem "file", .endElem "files", .endElem "metalink" ]

/-- A parse state in passthrough at depth 1, as reached inside a nested
unknown subtree. -/
def c2state : OstreeMetalinkRequest :=
  { requested_file := "example.img", passthrough_depth := 1,
    passthrough_previous := .INITIAL, found_a_file_element := false,
    found_our_file_element := false, verification_known := false, size := 0,
    verification_type := .MD5, verification_sha256 := none,
    verification_sha512 := none, verification_value := none, urls := [],
    state := .PASSTHROUGH, file_name := none }

/-- An unknown `metadata` element opened and closed directly under
`metalink`; the claimed passthrough unwinding would return the machine to
`IN_METALINK` at the end event. -/
def c2skipDemo : List XmlEvent :=
  [.start "metalink" [], .start "metadata" [], .endElem "metadata"]

/-- Prefix of events reaching state `SIZE` inside the matching file, ready
to receive the size text. -/
def c4sizeLead : List XmlEvent :=
  [.start "metalink" [], .start "files" [], .start "file" [("name", "example.img")],
   .start "size" []]

/-- A concrete parse state with `state = VERIFICATION`,
`verification_known` set and `verification_type = SHA256`, exactly the
configuration under which the text handler writes `verification_sha256`. -/
def c3verState : OstreeMetalinkRequest :=
  { requested_file := "example.img", passthrough_depth := 0,
    passthrough_previous := .INITIAL, found_a_file_element := true,
    found_our_file_element := true, verification_known := true, size := 0,
    verification_type := .SHA256, verification_sha256 := none,
    verification_sha512 := none, verification_value := none, urls := [],
    state := .VERIFICATION, file_name := none }

/-- The state produced from `c3verState` by one text event `"abc"`. -/
def c3afterText : OstreeMetalinkRequest :=
  { c3verState with verification_sha256 := some "abc" }

/-- A chunk whose `file` element lacks the required `name` attribute, so
parsing it fails with a collect-attributes error. -/
def c5badChunk : List XmlEvent :=
  [.start "metalink" [], .start "files" [], .start "file" []]

/-- A parse state in `RESOURCES` with `size = 0` (no `size` element seen). -/
def c6zeroSizeState : OstreeMetalinkRequest :=
  { requested_file := "example.img", passthrough_depth := 0,
    passthrough_previous := .INITIAL, found_a_file_element := true,
    found_our_file_element := true, verification_known := false, size := 0,
    verification_type := .MD5, verification_sha256 := none,
    verification_sha512 := none, verification_value := none, urls := [],
    state := .RESOURCES, file_name := none }

/-- A parse state in `RESOURCES` with a nonzero size but no recognized
digest kind. -/
def c6noHashState : OstreeMetalinkRequest :=
  { c6zeroSizeState with size := 1000 }

/-- A manifest whose matching file opens `resources` (with a url child)
without any preceding `size` element. -/
def c6demo : List XmlEvent :=
  [.start "metalink" [], .start "files" [], .start "file" [("name", "example.img")],
   .start "resources" [], .start "url" [("protocol", "http")]]

/-- Events leading into state `VERIFICATION`, used as shared lead-in of
the two hash orderings of C8. -/
def c8verLead : List XmlEvent :=
  [.start "metalink" [], .start "files" [], .start "file" [("name", "example.img")],
   .start "verification" []]

/-- Verification block listing an unsupported `md5` hash first and a
`sha256` hash second, then closing the document. -/
def c8md5First : List XmlEvent :=
  c8verLead ++
    [.start "hash" [("name", "md5")], .endElem "hash",
     .start "hash" [("name", "sha256")], .endElem "hash",
     .endElem "verification", .endElem "file", .endElem "files", .endElem "metalink"]

/-- Verification block listing the `sha256` hash first and `md5` second. -/
def c8shaFirst : List XmlEvent :=
  c8verLead ++
    [.start "hash" [("name", "sha256")], .endElem "hash",
     .start "hash" [("name", "md5")], .endElem "hash"]

/-- Events reaching the `hash name="sha256"` start, which sets
`verification_known` with `verification_type = SHA256`. -/
def c10demo : List XmlEvent :=
  [.start "metalink" [], .start "files" [], .start "file" [("name", "example.img")],
   .start "verification" [], .start "hash" [("name", "sha256")]]

/-- The parse state after `c10demo` (total extraction of the `ok` case). -/
def c10state : OstreeMetalinkRequest :=
  match processEvents anyUri (initialRequest "example.img") c10demo with
  | .ok s => s
  | .error _ => initialRequest "example.img"

/-! ## Helper lemmas: reachability invariant of the parse state

In every state reachable from `initialRequest`: once `verification_known`
is set the machine is past the `hash` start event, so its state is `HASH`
(or, since `metalink_parser_end` never pops, `PASSTHROUGH`); the recorded
`verification_type` is then one of the two supported algorithms; and —
because a text event can write `verification_sha256`/`verification_sha512`
only in state `VERIFICATION` with `verification_known` set, a combination
the first two facts exclude — the two digest fields are never written. -/

def ReqInv (s : OstreeMetalinkRequest) : Prop :=
  (s.verification_known = true → s.state = .HASH ∨ s.state = .PASSTHROUGH) ∧
  (s.verification_known = true →
    s.verification_type = .SHA256 ∨ s.verification_type = .SHA512) ∧
  s.verification_sha256 = none ∧ s.verification_sha512 = none

theorem ReqInv_initial (r : String) : ReqInv (initialRequest r) := by
  simp [ReqInv, initialRequest]

theorem start_sha_unchanged (s s2 : OstreeMetalinkRequest) (n : String)
    (a : List (String × String)) (he : metalink_parser_start s n a = .ok s2) :
    s2.verification_sha256 = s.verification_sha256 ∧
      s2.verification_sha512 = s.verification_sha512 := by
  obtain ⟨rq, pd, pp, fa, fo, vk, sz, vt, h256, h512, vv, us, st, fn⟩ := s
  cases st <;> simp only [metalink_parser_start] at he
  iterate 6 (all_goals (try (split at he)))
  all_goals (try (exact (Except.noConfusion he)))
  all_goals (injection he with he)
  all_goals (subst he)
  all_goals exact ⟨rfl, rfl⟩

theorem processEvent_inv (u : String → Bool) (s s2 : OstreeMetalinkRequest)
    (e : XmlEvent) (h : ReqInv s) (he : processEvent u s e = .ok s2) :
    ReqInv s2 ∧ (s.verification_known = true → s2.verification_known = true) := by
  obtain ⟨h1, h2, h3, h4⟩ := h
  obtain ⟨rq, pd, pp, fa, fo, vk, sz, vt, h256, h512, vv, us, st, fn⟩ := s
  cases st <;> cases e <;>
    simp only [processEvent, metalink_parser_start, metalink_parser_end,
      metalink_parser_text] at he
  iterate 6 (all_goals (try (split at he)))
  all_goals (try (exact (Except.noConfusion he)))
  all_goals (injection he with he)
  all_goals (subst he)
  all_goals (simp_all [ReqInv, unknown_element, state_transition])

theorem processEvents_inv (u : String → Bool) (s s2 : OstreeMetalinkRequest)
    (es : List XmlEvent) (h : ReqInv s) (he : processEvents u s es = .ok s2) :
    ReqInv s2 := by
  induction es generalizing s with
  | nil => simp only [processEvents] at he; injection he with he; subst he; exact h
  | cons e es ih =>
      simp only [processEvents] at he
      cases hstep : processEvent u s e with
      | error err => rw [hstep] at he; exact Except.noConfusion he
      | ok smid =>
          rw [hstep] at he
          exact ih smid (processEvent_inv u s smid e h hstep).1 he

theorem phase_ok_digest_present (s : OstreeMetalinkRequest)
    (h : start_target_request_phase s = .ok ()) :
    ¬ (s.verification_sha256 = none ∧ s.verification_sha512 = none) := by
  unfold start_target_request_phase at h
  iterate 6 (all_goals (try (split at h)))
  all_goals (try (exact (Except.noConfusion h)))
  all_goals assumption

theorem resolveStream_never_ok (u : String → Bool) (s : OstreeMetalinkRequest)
    (cs : List (List XmlEvent)) (h : ReqInv s) :
    isOkOutcome (resolveStream u s cs) = false := by
  induction cs generalizing s with
  | nil => rfl
  | cons c cs ih =>
      cases c with
      | nil =>
          simp only [resolveStream]
          cases hp : start_target_request_phase s with
          | error e => simp [hp, isOkOutcome, Except.map]
          | ok r =>
              exact absurd ⟨h.2.2.1, h.2.2.2⟩ (phase_ok_digest_present s (by rw [hp]))
      | cons e es =>
          simp only [resolveStream]
          cases hpe : processEvents u s (e :: es) with
          | error err => simp [isOkOutcome]
          | ok s2 => exact ih s2 (processEvents_inv u s s2 (e :: es) h hpe)

/-! ## Helper lemmas: `strspn` -/

theorem strspn_le (s a : List Char) : strspn s a ≤ s.length := by
  induction s with
  | nil => simp [strspn]
  | cons c cs ih =>
      simp only [strspn, List.length_cons]
      split
      · omega
      · omega

theorem strspn_eq_length_iff (s a : List Char) :
    strspn s a = s.length ↔ ∀ c ∈ s, c ∈ a := by
  induction s with
  | nil => simp [strspn]
  | cons c cs ih =>
      simp only [strspn, List.length_cons, List.mem_cons]
      split
      · rename_i hmem
        constructor
        · intro h c' hc'
          rcases hc' with rfl | hc'
          · exact hmem
          · exact (ih.1 (by omega)) c' hc'
        · intro h
          have := ih.2 (fun c' hc' => h c' (Or.inr hc'))
          omega
      · rename_i hmem
        constructor
        · intro h; omega
        · intro h; exact absurd (h c (Or.inl rfl)) hmem

theorem strspn_getD_not_mem (s a : List Char) (h : strspn s a < s.length) :
    s.getD (strspn s a) '\x00' ∉ a := by
  induction s with
  | nil => simp [strspn] at h
  | cons c cs ih =>
      by_cases hmem : c ∈ a
      · have hs : strspn (c :: cs) a = strspn cs a + 1 := by simp [strspn, hmem]
        rw [hs]
        simp only [List.getD_cons_succ]
        exact ih (by simp only [List.length_cons] at h; omega)
      · have hs : strspn (c :: cs) a = 0 := by simp [strspn, hmem]
        rw [hs]
        simpa using hmem

theorem mem_strspnAccept_iff (c : Char) :
    c ∈ strspnAccept ↔ c ∈ "0123456789abcdef".data := by
  have h1 : ∀ x ∈ strspnAccept, x ∈ "0123456789abcdef".data := by decide
  have h2 : ∀ x ∈ ("0123456789abcdef".data : List Char), x ∈ strspnAccept := by
    decide
  exact ⟨fun h => h1 c h, fun h => h2 c h⟩

/-! ## Claim C7 -/

/-- C7: the digest validator `valid_hex_checksum value expected_length`
returns true if and only if `value` consists only of lowercase hexadecimal
characters (the class written `[0-9a-f]`) and has exactly
`expected_length` characters; any uppercase hex digit, any non-hex
character, or a wrong length is rejected.  The hypothesis records that the
value, being a C string, contains no NUL character.  The function is a
pure predicate on its arguments by construction. -/
theorem C7_valid_hex_checksum_iff (s : String) (n : Nat) (hnul : '\x00' ∉ s.data) :
    valid_hex_checksum s n = true ↔
      (s.length = n ∧ ∀ c ∈ s.data, c ∈ "0123456789abcdef".data) := by
  have hlen_eq : s.length = s.data.length := rfl
  simp only [valid_hex_checksum, Bool.and_eq_true, decide_eq_true_eq]
  constructor
  · rintro ⟨hspn, hterm⟩
    have hfull : strspn s.data strspnAccept = s.data.length := by
      rcases Nat.lt_or_ge (strspn s.data strspnAccept) s.data.length with hlt | hge
      · exfalso
        have hel : s.data.getD (strspn s.data strspnAccept) '\x00' ∈ s.data := by
          rw [List.getD_eq_getElem?_getD, List.getElem?_eq_getElem hlt, Option.getD_some]
          exact List.getElem_mem hlt
        rw [hterm] at hel
        exact hnul hel
      · exact Nat.le_antisymm (strspn_le _ _) hge
    refine ⟨by omega, fun c hc => (mem_strspnAccept_iff c).1 ?_⟩
    exact (strspn_eq_length_iff _ _).1 hfull c hc
  · rintro ⟨hn, hmem⟩
    have hfull : strspn s.data strspnAccept = s.data.length :=
      (strspn_eq_length_iff _ _).2 fun c hc => (mem_strspnAccept_iff c).2 (hmem c hc)
    refine ⟨by omega, ?_⟩
    rw [hfull, List.getD_eq_getElem?_getD, List.getElem?_eq_none (le_refl _), Option.getD_none]

/-- Witness for C7: the characterization applied at the concrete value
`"ab"` with expected length 2, hypotheses discharged by computation. -/
theorem C7_valid_hex_checksum_iff_witness :
    ('\x00' ∉ "ab".data) ∧ valid_hex_checksum "ab" 2 = true := by
  refine ⟨by decide, ?_⟩
  exact (C7_valid_hex_checksum_iff "ab" 2 (by decide)).2 (by decide)

/-! ## Helper lemmas: the assertion branch -/

theorem collect_one_ne_assert (el : String) (a : List (String × String))
    (k : String) :
    g_markup_collect_one el a k ≠ .error .assertNotReached := by
  unfold g_markup_collect_one
  iterate 2 (all_goals (try split))
  all_goals simp

theorem processEvent_no_assert (u : String → Bool) (s : OstreeMetalinkRequest)
    (e : XmlEvent) (h : ReqInv s) :
    processEvent u s e ≠ .error .assertNotReached := by
  obtain ⟨h1, h2, h3, h4⟩ := h
  obtain ⟨rq, pd, pp, fa, fo, vk, sz, vt, h256, h512, vv, us, st, fn⟩ := s
  cases st <;> cases e <;>
    simp only [processEvent, metalink_parser_start, metalink_parser_end,
      metalink_parser_text]
  all_goals intro he
  iterate 6 (all_goals (try (split at he)))
  all_goals (try (exact (Except.noConfusion he)))
  all_goals (injection he with he)
  all_goals (try (exact (MetalinkError.noConfusion he)))
  all_goals (try (subst he))
  all_goals (simp_all [collect_one_ne_assert])

theorem processEvents_no_assert (u : String → Bool) (s : OstreeMetalinkRequest)
    (es : List XmlEvent) (h : ReqInv s) :
    processEvents u s es ≠ .error .assertNotReached := by
  induction es generalizing s with
  | nil => simp [processEvents]
  | cons e es ih =>
      simp only [processEvents]
      cases hstep : processEvent u s e with
      | error err =>
          intro hcon
          injection hcon with hcon
          subst hcon
          exact processEvent_no_assert u s e h hstep
      | ok smid => exact ih smid (processEvent_inv u s smid e h hstep).1

/-! ## Claim C1 -/

/-- C1: the claim states that for every well-formed manifest containing
the requested file with a valid digest, nonzero size and at least one
http/https url, `resolve` succeeds with that size and digest.  The code
refutes this: on the canonical well-formed manifest the resolution fails
with the no-digest error, and in fact no input whatsoever can make the
resolution succeed — the digest fields are never populated in any
reachable state, because the text handler writes them only in state
`VERIFICATION` with `verification_known` set, a configuration made
unreachable by the hash handler switching to `HASH` in the same step and
by the empty end handler never returning. -/
theorem C1_resolve_never_succeeds :
    resolve anyUri "example.img" [goodManifest, []] = some (.error .noDigest) ∧
    ∀ (uriOk : String → Bool) (fname : String) (chunks : List (List XmlEvent)),
      isOkOutcome (resolve uriOk fname chunks) = false := by
  refine ⟨rfl, fun u fn cs => ?_⟩
  exact resolveStream_never_ok u (initialRequest fn) cs (ReqInv_initial fn)

/-! ## Claim C2 -/

/-- C2: the claim states that an end-of-element event decrements
`passthrough_depth` when positive, restores the pre-passthrough state at
depth zero, and otherwise pops to the logical parent, so that unknown
subtrees are skipped without affecting siblings.  The code refutes this:
`metalink_parser_end` is the identity on every state (first conjunct — in
particular a passthrough state at depth 1 keeps depth 1), after an unknown
`metadata` child of `metalink` is opened and closed the machine is still
in `PASSTHROUGH` instead of back in `METALINK` (second conjunct), and the
following sibling `files` element is therefore swallowed as passthrough
depth 1 instead of being parsed (third conjunct). -/
theorem C2_end_event_changes_nothing :
    (c2state.state = .PASSTHROUGH ∧ c2state.passthrough_depth = 1 ∧
      metalink_parser_end c2state "metadata" = c2state) ∧
    (processEvents anyUri (initialRequest "example.img") c2skipDemo).map
        (fun s => (s.state, s.passthrough_depth)) = .ok (.PASSTHROUGH, 0) ∧
    (processEvents anyUri (initialRequest "example.img")
          (c2skipDemo ++ [.start "files" []])).map
        (fun s => (s.state, s.passthrough_depth)) = .ok (.PASSTHROUGH, 1) :=
  ⟨⟨rfl, rfl, rfl⟩, rfl, rfl⟩

/-! ## Claim C3 -/

/-- C3 counterexample: the claim states the digest fields are assigned
only while the machine state is `HASH`, first-wins.  At the concrete state
`c3verState` — whose state is `VERIFICATION`, not `HASH` — a text event
writes `verification_sha256`, and a second text event overwrites it
(last-wins), refuting both parts of the claim as a description of the
text handler. -/
theorem C3_counterexample :
    c3verState.state = .VERIFICATION ∧ ¬ c3verState.state = .HASH ∧
    (metalink_parser_text anyUri c3verState "abc").map
        (fun s => s.verification_sha256) = .ok (some "abc") ∧
    ((metalink_parser_text anyUri c3verState "abc").bind
        (fun s => metalink_parser_text anyUri s "def")).map
        (fun s => s.verification_sha256) = .ok (some "def") :=
  ⟨rfl, by decide, rfl, rfl⟩

/-- C3 as amended: digest fields are assigned by the text handler only
while the state is `VERIFICATION` with `verification_known` set, into the
field selected by `verification_type`, and a later text event overwrites
the value (last-wins); the start handler and the end handler never change
the digest fields; consequently, in every run from the initial request
state the digest fields remain unset. -/
theorem C3_digest_write_discipline :
    (∀ (u : String → Bool) (s s2 : OstreeMetalinkRequest) (t : String),
      metalink_parser_text u s t = .ok s2 →
      (¬ s2.verification_sha256 = s.verification_sha256 ∨
       ¬ s2.verification_sha512 = s.verification_sha512) →
      s.state = .VERIFICATION ∧ s.verification_known = true ∧
        ((s.verification_type = .SHA256 ∧ s2.verification_sha256 = some t ∧
            s2.verification_sha512 = s.verification_sha512) ∨
         (s.verification_type = .SHA512 ∧ s2.verification_sha512 = some t ∧
            s2.verification_sha256 = s.verification_sha256))) ∧
    (∀ (s s2 : OstreeMetalinkRequest) (n : String) (a : List (String × String)),
      metalink_parser_start s n a = .ok s2 →
      s2.verification_sha256 = s.verification_sha256 ∧
        s2.verification_sha512 = s.verification_sha512) ∧
    (∀ (s : OstreeMetalinkRequest) (n : String), metalink_parser_end s n = s) ∧
    (∀ (fname : String) (u : String → Bool) (es : List XmlEvent)
        (s : OstreeMetalinkRequest),
      processEvents u (initialRequest fname) es = .ok s →
      s.verification_sha256 = none ∧ s.verification_sha512 = none) := by
  refine ⟨?_, ?_, ?_, ?_⟩
  · intro u s s2 t he hdiff
    obtain ⟨rq, pd, pp, fa, fo, vk, sz, vt, h256, h512, vv, us, st, fn⟩ := s
    cases st <;> simp only [metalink_parser_text] at he
    iterate 4 (all_goals (try (split at he)))
    all_goals (try (exact (Except.noConfusion he)))
    all_goals (injection he with he)
    all_goals (subst he)
    all_goals (simp_all)
  · exact fun s s2 n a he => start_sha_unchanged s s2 n a he
  · exact fun s n => rfl
  · intro fname u es s he
    have h := processEvents_inv u (initialRequest fname) s es (ReqInv_initial fname) he
    exact ⟨h.2.2.1, h.2.2.2⟩

/-- Witness for C3: the amended discipline applied at the concrete state
`c3verState` with text `"abc"` (routing conclusion instantiated), and at
the concrete one-event run `metalink` from the initial state (digest
fields still unset). -/
theorem C3_digest_write_discipline_witness :
    (c3verState.state = .VERIFICATION ∧ c3verState.verification_known = true ∧
      ((c3verState.verification_type = .SHA256 ∧
          c3afterText.verification_sha256 = some "abc" ∧
          c3afterText.verification_sha512 = c3verState.verification_sha512) ∨
       (c3verState.verification_type = .SHA512 ∧
          c3afterText.verification_sha512 = some "abc" ∧
          c3afterText.verification_sha256 = c3verState.verification_sha256))) ∧
    ((state_transition (initialRequest "example.img") .METALINK).verification_sha256 =
        none ∧
      (state_transition (initialRequest "example.img") .METALINK).verification_sha512 =
        none) := by
  refine ⟨C3_digest_write_discipline.1 anyUri c3verState c3afterText "abc" rfl
    (Or.inl (by decide)), ?_⟩
  exact C3_digest_write_discipline.2.2.2 "example.img" anyUri
    [.start "metalink" []] _ rfl

/-! ## Claim C4 -/

/-- C4: the claim states that feeding the document in smaller fragments
produces the same result because text content of a `size` or `hash`
element is accumulated across fragments rather than replaced.  The code
refutes the accumulation: the `SIZE` text handler overwrites `size` with
the value of each fragment alone, so delivering the size text `"123"` as
the two fragments `"12"` and `"3"` leaves `size = 3` where the single
fragment leaves `size = 123`. -/
theorem C4_fragment_text_replaced_not_accumulated :
    ("12" ++ "3" = "123") ∧
    (processEvents anyUri (initialRequest "example.img")
        (c4sizeLead ++ [.text "123"])).map (fun s => s.size) = .ok 123 ∧
    (processEvents anyUri (initialRequest "example.img")
        (c4sizeLead ++ [.text "12", .text "3"])).map (fun s => s.size) = .ok 3 :=
  ⟨rfl, rfl, rfl⟩

/-! ## Claim C5 -/

/-- C5: the preflight validator `start_target_request_phase` performs
exactly the six checks in order, short-circuiting on the first failure —
each error is returned exactly when the corresponding check is the first
to fail, and success exactly when all six pass (first conjunct, one iff
per outcome).  It is triggered exactly once, by the zero-byte read: on an
empty chunk the stream loop completes with the preflight verdict on the
accumulated state, never reading the remaining chunks (second conjunct),
and a chunk whose parse fails completes with that parse error instead, so
no partial result is ever produced (third conjunct). -/
theorem C5_preflight_checks_in_order :
    (∀ s : OstreeMetalinkRequest,
      (start_target_request_phase s = .error .noFileElement ↔
        s.found_a_file_element = false) ∧
      (start_target_request_phase s = .error .noOurFile ↔
        s.found_a_file_element = true ∧ s.found_our_file_element = false) ∧
      (start_target_request_phase s = .error .noDigest ↔
        s.found_a_file_element = true ∧ s.found_our_file_element = true ∧
          s.verification_sha256 = none ∧ s.verification_sha512 = none) ∧
      (start_target_request_phase s = .error .invalidSha256 ↔
        s.found_a_file_element = true ∧ s.found_our_file_element = true ∧
          ¬ (s.verification_sha256 = none ∧ s.verification_sha512 = none) ∧
          (s.verification_sha256.any fun h => ! valid_hex_checksum h 64) = true) ∧
      (start_target_request_phase s = .error .invalidSha512 ↔
        s.found_a_file_element = true ∧ s.found_our_file_element = true ∧
          ¬ (s.verification_sha256 = none ∧ s.verification_sha512 = none) ∧
          (s.verification_sha256.any fun h => ! valid_hex_checksum h 64) = false ∧
          (s.verification_sha512.any fun h => ! valid_hex_checksum h 128) = true) ∧
      (start_target_request_phase s = .error .noUrls ↔
        s.found_a_file_element = true ∧ s.found_our_file_element = true ∧
          ¬ (s.verification_sha256 = none ∧ s.verification_sha512 = none) ∧
          (s.verification_sha256.any fun h => ! valid_hex_checksum h 64) = false ∧
          (s.verification_sha512.any fun h => ! valid_hex_checksum h 128) = false ∧
          s.urls.length = 0) ∧
      (start_target_request_phase s = .ok () ↔
        s.found_a_file_element = true ∧ s.found_our_file_element = true ∧
          ¬ (s.verification_sha256 = none ∧ s.verification_sha512 = none) ∧
          (s.verification_sha256.any fun h => ! valid_hex_checksum h 64) = false ∧
          (s.verification_sha512.any fun h => ! valid_hex_checksum h 128) = false ∧
          ¬ s.urls.length = 0)) ∧
    (∀ (u : String → Bool) (s : OstreeMetalinkRequest) (ds : List (List XmlEvent)),
      resolveStream u s ([] :: ds) =
        some ((start_target_request_phase s).map fun _ => s)) ∧
    (∀ (u : String → Bool) (s : OstreeMetalinkRequest) (e : XmlEvent)
        (es : List XmlEvent) (cs : List (List XmlEvent)) (err : MetalinkError),
      processEvents u s (e :: es) = .error err →
      resolveStream u s ((e :: es) :: cs) = some (.error err)) := by
  refine ⟨?_, ?_, ?_⟩
  · intro s
    unfold start_target_request_phase
    split_ifs with hA hB hC hD hE hF <;> simp_all
  · intro u s ds
    rfl
  · intro u s e es cs err h
    simp [resolveStream, h]

/-- Witness for C5: the characterization applied at the zero-initialized
request (first check fails), the zero-read equation at a concrete
remaining stream, and the abort equation at a concrete failing chunk. -/
theorem C5_preflight_checks_in_order_witness :
    start_target_request_phase (initialRequest "example.img") =
        .error .noFileElement ∧
    resolveStream anyUri (initialRequest "example.img") ([] :: [[.text "late"]]) =
      some ((start_target_request_phase (initialRequest "example.img")).map
        fun _ => initialRequest "example.img") ∧
    resolveStream anyUri (initialRequest "example.img") [c5badChunk, []] =
      some (.error (.collectAttr "file" "name")) := by
  refine ⟨(C5_preflight_checks_in_order.1 (initialRequest "example.img")).1.2 rfl,
    C5_preflight_checks_in_order.2.1 anyUri (initialRequest "example.img")
      [[.text "late"]], ?_⟩
  exact C5_preflight_checks_in_order.2.2 anyUri (initialRequest "example.img")
    (.start "metalink" []) [.start "files" [], .start "file" []] [[]]
    (.collectAttr "file" "name") rfl

/-! ## Claim C6 -/

/-- C6: every start-of-element event received in state `RESOURCES` is
preceded by the two cross-field checks, independent of the element name:
with `size = 0` the parse fails with the missing-or-zero-size error, and
with a nonzero size but no recognized digest kind it fails with the
missing-recognized-digest error.  In particular a matching file whose
`resources` block is reached without a `size` element fails at the first
element inside `resources` (third conjunct, on a concrete manifest). -/
theorem C6_resources_preconditions :
    (∀ (s : OstreeMetalinkRequest) (n : String) (a : List (String × String)),
      s.state = .RESOURCES → s.size = 0 →
      metalink_parser_start s n a = .error .noSizeOrZero) ∧
    (∀ (s : OstreeMetalinkRequest) (n : String) (a : List (String × String)),
      s.state = .RESOURCES → ¬ s.size = 0 → s.verification_known = false →
      metalink_parser_start s n a = .error .noKnownHash) ∧
    resolve anyUri "example.img" [c6demo, []] = some (.error .noSizeOrZero) := by
  refine ⟨?_, ?_, rfl⟩
  · intro s n a hst hsz
    obtain ⟨rq, pd, pp, fa, fo, vk, sz, vt, h256, h512, vv, us, st, fn⟩ := s
    simp only at hst
    subst hst
    simp only at hsz
    simp [metalink_parser_start, hsz]
  · intro s n a hst hsz hvk
    obtain ⟨rq, pd, pp, fa, fo, vk, sz, vt, h256, h512, vv, us, st, fn⟩ := s
    simp only at hst hvk
    subst hst
    subst hvk
    simp only at hsz
    simp [metalink_parser_start, hsz]

/-- Witness for C6: both precondition checks applied at concrete
`RESOURCES` states with a concrete `url` child. -/
theorem C6_resources_preconditions_witness :
    metalink_parser_start c6zeroSizeState "url" [("protocol", "http")] =
        .error .noSizeOrZero ∧
    metalink_parser_start c6noHashState "url" [("protocol", "http")] =
        .error .noKnownHash := by
  refine ⟨C6_resources_preconditions.1 c6zeroSizeState "url"
    [("protocol", "http")] rfl rfl, ?_⟩
  exact C6_resources_preconditions.2.1 c6noHashState "url" [("protocol", "http")]
    rfl (by decide) rfl

/-! ## Claim C8 -/

/-- C8 counterexample: the claim states that a verification block with
both an `md5` hash and a recognized `sha256` hash, in either order, keeps
the digest kind recognized so resolution does not fail for lack of a
recognized digest.  On the concrete md5-first manifest `c8md5First` the
digest kind ends unrecognized and the resolution fails with the no-digest
error despite the sha256 entry, refuting the claim. -/
theorem C8_counterexample :
    (processEvents anyUri (initialRequest "example.img") c8md5First).map
        (fun s => s.verification_known) = .ok false ∧
    resolve anyUri "example.img" [c8md5First, []] = some (.error .noDigest) :=
  ⟨rfl, rfl⟩

/-- C8 as amended: only the first hash element of a verification block is
dispatched in the `VERIFICATION` state — it moves the machine to `HASH`
and leaves the digest kind recognized exactly when its `name` is sha256
or sha512 (first conjunct); every further element that starts while the
machine is stuck in `HASH` (the end handler never pops) is treated as an
unknown element and leaves the digest kind unchanged (second conjunct).
Hence md5-then-sha256 ends unrecognized, while sha256-then-md5 stays
recognized (third conjunct, on the concrete sha256-first manifest). -/
theorem C8_first_hash_decides :
    (∀ (s s2 : OstreeMetalinkRequest) (a : List (String × String)) (t : String),
      s.state = .VERIFICATION →
      g_markup_collect_one "hash" a "name" = .ok t →
      metalink_parser_start s "hash" a = .ok s2 →
      s2.state = .HASH ∧
        (s2.verification_known = true ↔ (t = "sha256" ∨ t = "sha512"))) ∧
    (∀ (s s2 : OstreeMetalinkRequest) (n : String) (a : List (String × String)),
      s.state = .HASH → metalink_parser_start s n a = .ok s2 →
      s2.verification_known = s.verification_known ∧ s2.state = .PASSTHROUGH) ∧
    (processEvents anyUri (initialRequest "example.img") c8shaFirst).map
        (fun s => s.verification_known) = .ok true := by
  refine ⟨?_, ?_, rfl⟩
  · intro s s2 a t hst hcol he
    obtain ⟨rq, pd, pp, fa, fo, vk, sz, vt, h256, h512, vv, us, st, fn⟩ := s
    simp only at hst
    subst hst
    simp only [metalink_parser_start, hcol, if_pos rfl] at he
    split_ifs at he <;> (injection he with he) <;> subst he <;>
      simp_all [state_transition]
  · intro s s2 n a hst he
    obtain ⟨rq, pd, pp, fa, fo, vk, sz, vt, h256, h512, vv, us, st, fn⟩ := s
    simp only at hst
    subst hst
    simp only [metalink_parser_start] at he
    injection he with he
    subst he
    simp [unknown_element, state_transition]

/-- Witness for C8: the first-hash rule applied at the concrete
`VERIFICATION` state `c3verState` with an md5 hash element, and the
stuck-in-`HASH` rule applied at the same state moved to `HASH`. -/
theorem C8_first_hash_decides_witness :
    (({ c3verState with state := .HASH, verification_known := false } :
          OstreeMetalinkRequest).state = .HASH ∧
      (({ c3verState with state := .HASH, verification_known := false } :
          OstreeMetalinkRequest).verification_known = true ↔
        (("md5" : String) = "sha256" ∨ ("md5" : String) = "sha512"))) ∧
    (({ c3verState with state := .PASSTHROUGH } :
          OstreeMetalinkRequest).verification_known =
        ({ c3verState with state := .HASH } :
          OstreeMetalinkRequest).verification_known ∧
      ({ c3verState with state := .PASSTHROUGH } :
          OstreeMetalinkRequest).state = .PASSTHROUGH) := by
  refine ⟨C8_first_hash_decides.1 c3verState
    { c3verState with state := .HASH, verification_known := false }
    [("name", "md5")] "md5" rfl rfl rfl, ?_⟩
  exact C8_first_hash_decides.2.1 { c3verState with state := .HASH }
    { c3verState with state := .PASSTHROUGH } "hash" [("name", "sha256")] rfl rfl

/-! ## Claim C9 -/

/-- C9: the claim states that the synchronous adapter does not return
before the completion callback has run and returns the carried verdict.
The code refutes this: `MetalinkSyncCallState state = { 0, }` initializes
`running` to false (first conjunct), so the wait loop exits before its
first iteration and the call returns `success = false` after zero
iterations — without the completion callback ever running and regardless
of the asynchronous verdict (second and third conjuncts, with generous
fuel and with the callback assumed deliverable at any iteration). -/
theorem C9_sync_adapter_returns_before_completion :
    initSyncCallState.running = false ∧
    ostree_metalink_request_sync true 1000 = (false, 0) ∧
    ostree_metalink_request_sync false 1000 = (false, 0) :=
  ⟨rfl, rfl, rfl⟩

/-! ## Claim C10 -/

/-- C10: in every state reachable from the initial request state, if
`verification_known` is set then `verification_type` is `SHA256` or
`SHA512`; therefore the `g_assert_not_reached` default branch of the
checksum-type switch in the text handler is unreachable — no event
sequence from the initial state can produce the assertion error. -/
theorem C10_verification_type_invariant :
    (∀ (fname : String) (u : String → Bool) (es : List XmlEvent)
        (s : OstreeMetalinkRequest),
      processEvents u (initialRequest fname) es = .ok s →
      s.verification_known = true →
      s.verification_type = .SHA256 ∨ s.verification_type = .SHA512) ∧
    (∀ (fname : String) (u : String → Bool) (es : List XmlEvent),
      processEvents u (initialRequest fname) es ≠ .error .assertNotReached) := by
  constructor
  · intro fname u es s he hk
    exact (processEvents_inv u (initialRequest fname) s es
      (ReqInv_initial fname) he).2.1 hk
  · intro fname u es
    exact processEvents_no_assert u (initialRequest fname) es (ReqInv_initial fname)

/-- Witness for C10: the invariant applied to the concrete run `c10demo`,
whose final state has `verification_known` set. -/
theorem C10_verification_type_invariant_witness :
    c10state.verification_known = true ∧
    (c10state.verification_type = .SHA256 ∨ c10state.verification_type = .SHA512) ∧
    processEvents anyUri (initialRequest "example.img") c10demo ≠
      .error .assertNotReached := by
  refine ⟨rfl, ?_, ?_⟩
  · exact C10_verification_type_invariant.1 "example.img" anyUri c10demo
      c10state rfl rfl
  · exact C10_verification_type_invariant.2 "example.img" anyUri c10demo
